import Mathlib

/-!
Verification development for the transaction-handle core of the repository
(`woke/testing/transactions.py`).

The Python code is shallowly embedded: the handle `TransactionAbc` becomes the
structure `Handle`, the dev-chain backend becomes `DevChain` (its three concrete
classes `AnvilDevChain`, `GanacheDevChain`, `HardhatDevChain` become
`DevChainKind`), and each property/method becomes a function that threads the
handle state explicitly together with a `World` record counting the JSON-RPC
calls issued (so that "issues no further backend fetch" is a provable statement
about `World`).  Python exceptions become the `Except PyErr` monad written out
as explicit matches; hex strings are parsed by an executable model of
`int(s, 16)` / `bytes.fromhex`.  The `self._chain` back-reference of the Python
object is passed as the explicit `DevChain` argument of each operation (the
code never mutates it).  External codec collaborators living outside the
transaction module (`_process_revert_data`, `_process_return_data`,
`_process_events`, and the generated contract constructor `self._return_type`)
are modelled as uninterpreted value constructors recording their inputs.
-/

/-- Value of one hexadecimal digit character, as accepted by Python
`int(s, 16)`. -/
def hexDigit? (c : Char) : Option Nat :=
  if '0' ≤ c ∧ c ≤ '9' then some (c.toNat - '0'.toNat)
  else if 'a' ≤ c ∧ c ≤ 'f' then some (c.toNat - 'a'.toNat + 10)
  else if 'A' ≤ c ∧ c ≤ 'F' then some (c.toNat - 'A'.toNat + 10)
  else none

/-- Accumulator pass over the digits of a base-16 literal. -/
def hexDigitsAux : List Char → Nat → Option Nat
  | [], acc => some acc
  | c :: cs, acc =>
    match hexDigit? c with
    | some d => hexDigitsAux cs (16 * acc + d)
    | none => none

/-- Model of Python `int(s, 16)` on the non-negative hex strings the JSON-RPC
protocol delivers (optional `0x`/`0X` prefix, at least one digit); `none`
models the `ValueError` raised on malformed input. -/
def hexToNat? (s : String) : Option Nat :=
  let cs := s.data
  let cs := if cs.take 2 = ['0', 'x'] ∨ cs.take 2 = ['0', 'X'] then cs.drop 2 else cs
  match cs with
  | [] => none
  | _ => hexDigitsAux cs 0

/-- Byte values of consecutive hex-digit pairs; `none` models the `ValueError`
of Python `bytes.fromhex` on odd length or a bad digit. -/
def hexPairs? : List Char → Option (List Nat)
  | [] => some []
  | c1 :: c2 :: rest =>
    match hexDigit? c1, hexDigit? c2, hexPairs? rest with
    | some a, some b, some l => some ((16 * a + b) :: l)
    | _, _, _ => none
  | [_] => none

/-- Model of Python `bytes.fromhex`. -/
def bytesFromHex? (s : String) : Option (List Nat) :=
  hexPairs? s.data

/-- Model of the Python slice `s[n:]`. -/
def pyDrop (s : String) (n : Nat) : String :=
  ⟨s.data.drop n⟩

/-- Model of the source's `if revert_data.startswith("0x"): revert_data = revert_data[2:]`. -/
def strip0x (s : String) : String :=
  if s.data.take 2 = ['0', 'x'] then pyDrop s 2 else s

/-- JSON-ish values carried by a `JsonRpcError`'s `data` attribute. -/
inductive Json where
  | str : String → Json
  | obj : List (String × Json) → Json
  | nul : Json

/-- First-match lookup in a JSON object's field list. -/
def jsonLookup : List (String × Json) → String → Option Json
  | [], _ => none
  | (k, v) :: rest, key => if k = key then some v else jsonLookup rest key

/-- Model of Python subscripting `j[key]`: `none` covers every exception path
(`KeyError`, `TypeError` on a non-dict) because the source catches them all
uniformly. -/
def jsonGet (j : Json) (key : String) : Option Json :=
  match j with
  | .obj fields => jsonLookup fields key
  | _ => none

/-- `TransactionStatusEnum` of the source (PENDING = -1, SUCCESS = 1,
FAILURE = 0). -/
inductive TransactionStatusEnum where
  | PENDING
  | SUCCESS
  | FAILURE
deriving DecidableEq

/-- `TransactionTypeEnum` of the source (LEGACY = 0, EIP2930 = 1, EIP1559 = 2). -/
inductive TransactionTypeEnum where
  | LEGACY
  | EIP2930
  | EIP1559
deriving DecidableEq

/-- Opaque token for the original submission parameters (`TxParams`); the core
only passes them through to `dev_chain.call`. -/
abbrev TxParams := Nat

/-- Fields of the `eth_getTransactionByHash` response used by the claims under
study (the Python dict also carries further fields read by other accessors;
`typeField` stands for the JSON key `"type"`, a Lean keyword-adjacent name). -/
structure TxData where
  typeField : String
  v : String
  gasPrice : String
deriving DecidableEq

/-- One receipt log entry. -/
structure Log where
  topics : List String
  data : String
deriving DecidableEq

/-- Fields of the `eth_getTransactionReceipt` response used by the handle.
`contractAddress = some a` models the key being present with a non-null value;
`none` models both absence and JSON null, which the source treats alike. -/
structure Receipt where
  status : String
  contractAddress : Option String
  logs : List Log
  gasUsed : String
  cumulativeGasUsed : String
deriving DecidableEq

/-- One frame of the Anvil `trace_transaction` response; `output` stands for
the nested field `frame["result"]["output"]`, the only part the handle reads. -/
structure CallFrame where
  output : String
deriving DecidableEq

/-- Options dict passed to `debug_traceTransaction`. -/
structure DebugTraceOptions where
  enableMemory : Bool
deriving DecidableEq

/-- Fields of the `debug_traceTransaction` response used by the handle. -/
structure DebugTrace where
  returnValue : String
deriving DecidableEq

/-- The three concrete dev-chain classes dispatched on by `isinstance` checks. -/
inductive DevChainKind where
  | AnvilDevChain
  | GanacheDevChain
  | HardhatDevChain
deriving DecidableEq

/-- Backend model: one response per JSON-RPC entry point.  `receiptAt n` is the
response to the `(n+1)`-st `eth_getTransactionReceipt` poll (receipts appear
over time), `callOutcome p = some d` models `eth_call` raising `JsonRpcError`
with `e.data = d`, and `none` models the call returning normally. -/
structure DevChain where
  kind : DevChainKind
  getTransactionData : TxData
  receiptAt : Nat → Option Receipt
  traceFrames : List CallFrame
  debugTrace : DebugTraceOptions → DebugTrace
  callOutcome : TxParams → Option Json

/-- Count of backend calls issued and of milliseconds slept, so that claims
about "no further backend fetch" and the 250 ms poll interval are statable. -/
structure World where
  receiptCalls : Nat
  txDataCalls : Nat
  traceCalls : Nat
  debugCalls : Nat
  ethCalls : Nat
  sleepMs : Nat
deriving DecidableEq

/-- Decoded revert error produced by the external codec. -/
structure TransactionRevertedError where
  tx_hash : String
  data : List Nat
  fqn : String
deriving DecidableEq

/-- Python exceptions that can escape the embedded operations. -/
inductive PyErr where
  | assertionError
  | valueError
  | indexError
  | jsonRpc : Json → PyErr
  | reverted : TransactionRevertedError → PyErr

/-- Whether an embedded Python computation returned normally (`true`) or
raised (`false`). -/
def exceptIsOk {α : Type} : Except PyErr α → Bool
  | .ok _ => true
  | .error _ => false

/-- Modelled from the spec: the external ABI codec `_process_return_data`
(`woke/testing/core.py`, not under `src/`) and the generated contract
constructor `self._return_type(address, chain)` are, per spec sections 1 and 6,
external collaborators; they are modelled as uninterpreted constructors
recording their inputs.  `ref a t` is the handle-typed reference
`return_type(a, chain)`; `fromBytes bs abi t` is `_process_return_data(bs,
abi, return_type)`. -/
inductive RetValue where
  | ref : String → Nat → RetValue
  | fromBytes : List Nat → Nat → Nat → RetValue
deriving DecidableEq

/-- Result cached in `self._events`: either the literal empty list of the
contract-creation branch, or the output of the external `_process_events`
codec, modelled as an uninterpreted constructor recording its inputs. -/
inductive EventsResult where
  | empty
  | processed : String → List Log → String → EventsResult
deriving DecidableEq

/-- Modelled from the spec: `_process_revert_data` (`woke/testing/core.py`, not
under `src/`) decodes the revert payload against the recipient's ABI and always
raises a `TransactionRevertedError` (spec section 4.5); modelled as an
uninterpreted constructor recording its inputs. -/
def processRevertData (txHash : String) (payload : List Nat) (fqn : String) :
    TransactionRevertedError :=
  ⟨txHash, payload, fqn⟩

/-- State of one `TransactionAbc` object: the immutable construction arguments
followed by the lazily-populated cache slots, named after the `self._...`
attributes of the source (`_abi` is an opaque token, the codec being external). -/
structure Handle where
  tx_hash : String
  tx_params : TxParams
  abi : Option Nat
  return_type : Nat
  recipient_fqn : Option String
  tx_data : Option TxData
  tx_receipt : Option Receipt
  trace_transaction : Option (List CallFrame)
  debug_trace_transaction : Option DebugTrace
  _error : Option TransactionRevertedError
  _events : Option EventsResult
deriving DecidableEq

namespace TransactionAbc

/-- The `status` property: fetch the receipt only when the cache slot is empty,
return `PENDING` without caching when the backend has no receipt, otherwise
cache the receipt and parse its `status` flag (`int(receipt["status"], 16)`). -/
def status (b : DevChain) (h : Handle) (w : World) :
    Except PyErr TransactionStatusEnum × Handle × World :=
  match h.tx_receipt with
  | none =>
    match b.receiptAt w.receiptCalls with
    | none =>
      (.ok .PENDING, h, {w with receiptCalls := w.receiptCalls + 1})
    | some r =>
      let h1 : Handle := {h with tx_receipt := some r}
      let w1 : World := {w with receiptCalls := w.receiptCalls + 1}
      match hexToNat? r.status with
      | none => (.error .valueError, h1, w1)
      | some n => (.ok (if n = 0 then .FAILURE else .SUCCESS), h1, w1)
  | some r =>
    match hexToNat? r.status with
    | none => (.error .valueError, h, w)
    | some n => (.ok (if n = 0 then .FAILURE else .SUCCESS), h, w)

/-- The `for _ in range(40)` phase of `wait`: up to `n` immediate status
checks; the Boolean records whether a terminal status caused an early return. -/
def waitFor : Nat → DevChain → Handle → World → Except PyErr Bool × Handle × World
  | 0, _, h, w => (.ok false, h, w)
  | n + 1, b, h, w =>
    match status b h w with
    | (.error pe, h1, w1) => (.error pe, h1, w1)
    | (.ok st, h1, w1) =>
      if st = .PENDING then waitFor n b h1 w1 else (.ok true, h1, w1)

/-- The `while self.status == PENDING: time.sleep(0.25)` phase of `wait`,
driven by fuel; `none` models divergence (the source loop has no timeout), and
each pending check adds one 250 ms sleep. -/
def waitWhile : Nat → DevChain → Handle → World → Option (Except PyErr Unit × Handle × World)
  | 0, _, _, _ => none
  | fuel + 1, b, h, w =>
    match status b h w with
    | (.error pe, h1, w1) => some (.error pe, h1, w1)
    | (.ok st, h1, w1) =>
      if st = .PENDING then
        waitWhile fuel b h1 {w1 with sleepMs := w1.sleepMs + 250}
      else some (.ok (), h1, w1)

/-- The `wait` method: 40 immediate re-checks, then the sleep-poll loop. -/
def wait (fuel : Nat) (b : DevChain) (h : Handle) (w : World) :
    Option (Except PyErr Unit × Handle × World) :=
  match waitFor 40 b h w with
  | (.error pe, h1, w1) => some (.error pe, h1, w1)
  | (.ok true, h1, w1) => some (.ok (), h1, w1)
  | (.ok false, h1, w1) => waitWhile fuel b h1 w1

/-- The `@_fetch_tx_receipt` decorator: `if self._tx_receipt is None:
self.wait()` followed by `assert self._tx_receipt is not None`. -/
def ensureReceipt (fuel : Nat) (b : DevChain) (h : Handle) (w : World) :
    Option (Except PyErr Unit × Handle × World) :=
  match h.tx_receipt with
  | some _ => some (.ok (), h, w)
  | none =>
    match wait fuel b h w with
    | none => none
    | some (.error pe, h1, w1) => some (.error pe, h1, w1)
    | some (.ok _, h1, w1) =>
      match h1.tx_receipt with
      | some _ => some (.ok (), h1, w1)
      | none => some (.error .assertionError, h1, w1)

/-- The `@_fetch_tx_data` decorator followed by the property body's read of
`self._tx_data`: fetch `eth_getTransactionByHash` once if the slot is empty and
hand the cached data to the property body. -/
def ensureTxData (b : DevChain) (h : Handle) (w : World) : TxData × Handle × World :=
  match h.tx_data with
  | some d => (d, h, w)
  | none =>
    (b.getTransactionData, {h with tx_data := some b.getTransactionData},
     {w with txDataCalls := w.txDataCalls + 1})

/-- `_fetch_trace_transaction`: only the Anvil backend supports
`trace_transaction` (the source asserts the `isinstance` before fetching). -/
def fetch_trace_transaction (b : DevChain) (h : Handle) (w : World) :
    Except PyErr Unit × Handle × World :=
  match h.trace_transaction with
  | some _ => (.ok (), h, w)
  | none =>
    if b.kind = .AnvilDevChain then
      (.ok (), {h with trace_transaction := some b.traceFrames},
       {w with traceCalls := w.traceCalls + 1})
    else (.error .assertionError, h, w)

/-- `_fetch_debug_trace_transaction`: fetch `debug_traceTransaction` with
options `{"enableMemory": True}` once if the slot is empty. -/
def fetch_debug_trace_transaction (b : DevChain) (h : Handle) (w : World) :
    Handle × World :=
  match h.debug_trace_transaction with
  | some _ => (h, w)
  | none =>
    ({h with debug_trace_transaction := some (b.debugTrace ⟨true⟩)},
     {w with debugCalls := w.debugCalls + 1})

/-- Revert-payload extraction from `e.data` inside the `error` property:
Anvil and Ganache read `e.data["data"]`, Hardhat reads `e.data["data"]["data"]`,
and a leading `0x` is stripped; `none` models any exception inside the inner
`try`, which makes the source re-raise the original `JsonRpcError`. -/
def extractRevertData (kind : DevChainKind) (edata : Json) : Option String :=
  match kind with
  | .AnvilDevChain | .GanacheDevChain =>
    match jsonGet edata "data" with
    | some (.str s) => some (strip0x s)
    | _ => none
  | .HardhatDevChain =>
    match jsonGet edata "data" with
    | some inner =>
      match jsonGet inner "data" with
      | some (.str s) => some (strip0x s)
      | _ => none
    | none => none

/-- The `error` property: `None` on SUCCESS, the cached error if present,
otherwise replay the original parameters through `eth_call`, extract the revert
payload per backend kind, and cache the decoded `TransactionRevertedError`. -/
def error (fuel : Nat) (b : DevChain) (h : Handle) (w : World) :
    Option (Except PyErr (Option TransactionRevertedError) × Handle × World) :=
  match ensureReceipt fuel b h w with
  | none => none
  | some (.error pe, h1, w1) => some (.error pe, h1, w1)
  | some (.ok _, h1, w1) =>
    match status b h1 w1 with
    | (.error pe, h2, w2) => some (.error pe, h2, w2)
    | (.ok st, h2, w2) =>
      if st = .SUCCESS then some (.ok none, h2, w2)
      else
        match h2._error with
        | some e => some (.ok (some e), h2, w2)
        | none =>
          let w3 : World := {w2 with ethCalls := w2.ethCalls + 1}
          match b.callOutcome h2.tx_params with
          | none => some (.error .assertionError, h2, w3)
          | some edata =>
            match extractRevertData b.kind edata with
            | none => some (.error (.jsonRpc edata), h2, w3)
            | some revertData =>
              match h2.recipient_fqn with
              | none => some (.error .assertionError, h2, w3)
              | some fqn =>
                match bytesFromHex? revertData with
                | none => some (.error .valueError, h2, w3)
                | some bs =>
                  let e := processRevertData h2.tx_hash bs fqn
                  some (.ok (some e), {h2 with _error := some e}, w3)

/-- The `events` property: cached list if present; on a contract-creation
transaction (no recipient) assert the receipt's log list is empty and cache the
empty result; otherwise cache the codec's `_process_events` output. -/
def events (fuel : Nat) (b : DevChain) (h : Handle) (w : World) :
    Option (Except PyErr EventsResult × Handle × World) :=
  match ensureReceipt fuel b h w with
  | none => none
  | some (.error pe, h1, w1) => some (.error pe, h1, w1)
  | some (.ok _, h1, w1) =>
    match h1._events with
    | some ev => some (.ok ev, h1, w1)
    | none =>
      match h1.tx_receipt with
      | none => some (.error .assertionError, h1, w1)
      | some r =>
        match h1.recipient_fqn with
        | none =>
          if r.logs = [] then
            some (.ok .empty, {h1 with _events := some .empty}, w1)
          else some (.error .assertionError, h1, w1)
        | some fqn =>
          let ev := EventsResult.processed h1.tx_hash r.logs fqn
          some (.ok ev, {h1 with _events := some ev}, w1)

/-- The `return_value` property: on non-SUCCESS status resolve and raise the
decoded error; on SUCCESS return a handle-typed reference when the receipt
carries a non-null `contractAddress`, otherwise decode the outermost
`trace_transaction` frame's output (Anvil) or the debug trace's `returnValue`
(other backends) against the expected return type. -/
def return_value (fuel : Nat) (b : DevChain) (h : Handle) (w : World) :
    Option (Except PyErr RetValue × Handle × World) :=
  match ensureReceipt fuel b h w with
  | none => none
  | some (.error pe, h1, w1) => some (.error pe, h1, w1)
  | some (.ok _, h1, w1) =>
    match status b h1 w1 with
    | (.error pe, h2, w2) => some (.error pe, h2, w2)
    | (.ok st, h2, w2) =>
      if st ≠ .SUCCESS then
        match error fuel b h2 w2 with
        | none => none
        | some (.error pe, h3, w3) => some (.error pe, h3, w3)
        | some (.ok none, h3, w3) => some (.error .assertionError, h3, w3)
        | some (.ok (some e), h3, w3) => some (.error (.reverted e), h3, w3)
      else
        match h2.tx_receipt with
        | none => some (.error .assertionError, h2, w2)
        | some r =>
          match r.contractAddress with
          | some addr => some (.ok (.ref addr h2.return_type), h2, w2)
          | none =>
            match h2.abi with
            | none => some (.error .assertionError, h2, w2)
            | some abi =>
              if b.kind = .AnvilDevChain then
                match fetch_trace_transaction b h2 w2 with
                | (.error pe, h3, w3) => some (.error pe, h3, w3)
                | (.ok _, h3, w3) =>
                  match h3.trace_transaction with
                  | none => some (.error .assertionError, h3, w3)
                  | some [] => some (.error .indexError, h3, w3)
                  | some (f :: _) =>
                    match bytesFromHex? (pyDrop f.output 2) with
                    | none => some (.error .valueError, h3, w3)
                    | some bs => some (.ok (.fromBytes bs abi h3.return_type), h3, w3)
              else
                match fetch_debug_trace_transaction b h2 w2 with
                | (h3, w3) =>
                  match h3.debug_trace_transaction with
                  | none => some (.error .assertionError, h3, w3)
                  | some dt =>
                    match bytesFromHex? dt.returnValue with
                    | none => some (.error .valueError, h3, w3)
                    | some bs => some (.ok (.fromBytes bs abi h3.return_type), h3, w3)

end TransactionAbc

namespace LegacyTransaction

/-- The legacy variant's `v` property: `int(self._tx_data["v"], 16)`. -/
def v (b : DevChain) (h : Handle) (w : World) : Except PyErr Nat × Handle × World :=
  match TransactionAbc.ensureTxData b h w with
  | (d, h1, w1) =>
    match hexToNat? d.v with
    | some n => (.ok n, h1, w1)
    | none => (.error .valueError, h1, w1)

/-- The legacy variant's `gas_price` property: `int(self._tx_data["gasPrice"], 16)`. -/
def gas_price (b : DevChain) (h : Handle) (w : World) : Except PyErr Nat × Handle × World :=
  match TransactionAbc.ensureTxData b h w with
  | (d, h1, w1) =>
    match hexToNat? d.gasPrice with
    | some n => (.ok n, h1, w1)
    | none => (.error .valueError, h1, w1)

/-- The legacy variant's `type` property: assert the raw transaction's encoded
type field parses to 0, then report the LEGACY tag. -/
def type (b : DevChain) (h : Handle) (w : World) :
    Except PyErr TransactionTypeEnum × Handle × World :=
  match TransactionAbc.ensureTxData b h w with
  | (d, h1, w1) =>
    match hexToNat? d.typeField with
    | none => (.error .valueError, h1, w1)
    | some n => if n = 0 then (.ok .LEGACY, h1, w1) else (.error .assertionError, h1, w1)

end LegacyTransaction

/-! Concrete instances used to evaluate the model on explicit inputs. -/

/-- A receipt of a successfully mined call (status flag `0x1`). -/
def rSuccess : Receipt :=
  ⟨"0x1", none, [], "0x5208", "0x5208"⟩

/-- A receipt of a reverted call (status flag `0x0`). -/
def rFail : Receipt :=
  ⟨"0x0", none, [], "0x5208", "0x5208"⟩

/-- A receipt of a successful contract creation. -/
def rCreate : Receipt :=
  ⟨"0x1", some "0xc0ffee", [], "0x5208", "0x5208"⟩

/-- A receipt with status flag `0x0` whose `contractAddress` field is non-null. -/
def rCreateFail : Receipt :=
  ⟨"0x0", some "0xc0ffee", [], "0x5208", "0x5208"⟩

/-- A successful receipt carrying one log entry. -/
def rLogs : Receipt :=
  ⟨"0x1", none, [⟨["0xaa"], "0xbb"⟩], "0x5208", "0x5208"⟩

/-- Raw data of a legacy-type transaction. -/
def dLegacy : TxData :=
  ⟨"0x0", "0x1b", "0x3b9aca00"⟩

/-- Raw data of a fee-market (EIP-1559) transaction. -/
def dFeeMarket : TxData :=
  ⟨"0x2", "0x1", "0x0"⟩

/-- `e.data` of the replay-call `JsonRpcError` in the Anvil/Ganache shape: the
revert payload sits directly under the `data` key. -/
def edataFlat : Json :=
  .obj [("data", .str "0x08c379a0")]

/-- `e.data` in the Hardhat shape: the revert payload sits one level deeper. -/
def edataNested : Json :=
  .obj [("data", .obj [("data", .str "0x08c379a0")])]

/-- The decoded revert error produced from `edataFlat`/`edataNested` payloads
for hash `0xabc` and recipient `F`. -/
def e0 : TransactionRevertedError :=
  ⟨"0xabc", [8, 195, 121, 160], "F"⟩

/-- An Anvil backend whose receipt is available at once. -/
def bAnvil : DevChain :=
  ⟨.AnvilDevChain, dLegacy, fun _ => some rSuccess, [⟨"0x002a"⟩],
   fun _ => ⟨"002a"⟩, fun _ => some edataFlat⟩

/-- A Ganache backend with the flat error-data shape. -/
def bGanache : DevChain :=
  ⟨.GanacheDevChain, dLegacy, fun _ => some rSuccess, [],
   fun _ => ⟨"002a"⟩, fun _ => some edataFlat⟩

/-- A Hardhat backend with the nested error-data shape. -/
def bHardhat : DevChain :=
  ⟨.HardhatDevChain, dLegacy, fun _ => some rSuccess, [],
   fun _ => ⟨"002a"⟩, fun _ => some edataNested⟩

/-- An Anvil backend whose receipt only appears on the 46th poll. -/
def bPend : DevChain :=
  ⟨.AnvilDevChain, dLegacy, fun i => if i < 45 then none else some rSuccess,
   [⟨"0x002a"⟩], fun _ => ⟨"002a"⟩, fun _ => some edataFlat⟩

/-- A backend that never produces a receipt. -/
def bNever : DevChain :=
  ⟨.AnvilDevChain, dLegacy, fun _ => none, [⟨"0x002a"⟩],
   fun _ => ⟨"002a"⟩, fun _ => some edataFlat⟩

/-- A freshly constructed handle: every cache slot empty. -/
def h0 : Handle :=
  ⟨"0xabc", 0, some 1, 7, some "F", none, none, none, none, none, none⟩

/-- A handle whose receipt cache holds a success receipt. -/
def hSucc : Handle :=
  {h0 with tx_receipt := some rSuccess}

/-- A handle whose receipt cache holds a failure receipt. -/
def hFail : Handle :=
  {h0 with tx_receipt := some rFail}

/-- A handle whose receipt cache holds a successful contract creation. -/
def hCreate : Handle :=
  {h0 with tx_receipt := some rCreate}

/-- A handle whose receipt cache holds a failed receipt with a non-null
created-contract address. -/
def hCreateFail : Handle :=
  {h0 with tx_receipt := some rCreateFail}

/-- A contract-creation handle (no recipient) with a logless success receipt. -/
def hNoRecipient : Handle :=
  {h0 with recipient_fqn := none, tx_receipt := some rCreate}

/-- A legacy handle whose raw-data cache is populated. -/
def hLegacy : Handle :=
  {h0 with tx_data := some dLegacy}

/-- The initial call-count state: no backend calls issued, no time slept. -/
def w0 : World :=
  ⟨0, 0, 0, 0, 0, 0⟩

/-! Helper lemmas about the polling machinery, shared across the claims. -/

theorem ensureReceipt_cached (fuel : Nat) (b : DevChain) (h : Handle) (w : World)
    (r : Receipt) (hr : h.tx_receipt = some r) :
    TransactionAbc.ensureReceipt fuel b h w = some (.ok (), h, w) := by
  simp [TransactionAbc.ensureReceipt, hr]

theorem status_cached (b : DevChain) (h : Handle) (w : World) (r : Receipt) (n : Nat)
    (hr : h.tx_receipt = some r) (hs : hexToNat? r.status = some n) :
    TransactionAbc.status b h w =
      (.ok (if n = 0 then .FAILURE else .SUCCESS), h, w) := by
  simp [TransactionAbc.status, hr, hs]

theorem statusOf_ne_pending (n : Nat) :
    (if n = 0 then TransactionStatusEnum.FAILURE else .SUCCESS) ≠ .PENDING := by
  by_cases hn : n = 0 <;> simp [hn]

theorem waitFor_terminal (n : Nat) (b : DevChain) (h h1 : Handle) (w w1 : World)
    (st : TransactionStatusEnum) (hpos : 0 < n)
    (hst : TransactionAbc.status b h w = (.ok st, h1, w1)) (hne : st ≠ .PENDING) :
    TransactionAbc.waitFor n b h w = (.ok true, h1, w1) := by
  cases n with
  | zero => exact absurd hpos (lt_irrefl 0)
  | succ m => simp [TransactionAbc.waitFor, hst, hne]

theorem waitFor_all_pending (b : DevChain) :
    ∀ (n : Nat) (h : Handle) (w : World), h.tx_receipt = none →
    (∀ i, i < n → b.receiptAt (w.receiptCalls + i) = none) →
    TransactionAbc.waitFor n b h w =
      (.ok false, h, {w with receiptCalls := w.receiptCalls + n}) := by
  intro n
  induction n with
  | zero => intro h w _ _; simp [TransactionAbc.waitFor]
  | succ m ih =>
    intro h w hr hnone
    have h0 : b.receiptAt w.receiptCalls = none := by
      simpa using hnone 0 (Nat.succ_pos m)
    have hst : TransactionAbc.status b h w =
        (.ok .PENDING, h, {w with receiptCalls := w.receiptCalls + 1}) := by
      simp [TransactionAbc.status, hr, h0]
    have hrec := ih h {w with receiptCalls := w.receiptCalls + 1} hr (by
      intro i hi
      have := hnone (i + 1) (by omega)
      simpa [Nat.add_assoc, Nat.add_comm, Nat.add_left_comm] using this)
    simp only [TransactionAbc.waitFor, hst, reduceIte, hrec]
    cases w with
    | mk a c d e f g => simp; omega

theorem waitFor_finds (b : DevChain) (r : Receipt) (m : Nat)
    (hm : hexToNat? r.status = some m) :
    ∀ (k n : Nat) (h : Handle) (w : World), k < n → h.tx_receipt = none →
    (∀ i, i < k → b.receiptAt (w.receiptCalls + i) = none) →
    b.receiptAt (w.receiptCalls + k) = some r →
    TransactionAbc.waitFor n b h w =
      (.ok true, {h with tx_receipt := some r},
       {w with receiptCalls := w.receiptCalls + k + 1}) := by
  intro k
  induction k with
  | zero =>
    intro n h w hkn hr _ hfound
    have hfound0 : b.receiptAt w.receiptCalls = some r := by simpa using hfound
    have hst : TransactionAbc.status b h w =
        (.ok (if m = 0 then .FAILURE else .SUCCESS), {h with tx_receipt := some r},
         {w with receiptCalls := w.receiptCalls + 1}) := by
      simp [TransactionAbc.status, hr, hfound0, hm]
    exact waitFor_terminal n b h _ w _ _ (by omega) hst (statusOf_ne_pending m)
  | succ j ih =>
    intro n h w hkn hr hnone hfound
    obtain ⟨p, rfl⟩ : ∃ p, n = p + 1 := ⟨n - 1, by omega⟩
    have h0 : b.receiptAt w.receiptCalls = none := by
      simpa using hnone 0 (Nat.succ_pos j)
    have hst : TransactionAbc.status b h w =
        (.ok .PENDING, h, {w with receiptCalls := w.receiptCalls + 1}) := by
      simp [TransactionAbc.status, hr, h0]
    have hrec := ih p h {w with receiptCalls := w.receiptCalls + 1} (by omega) hr (by
      intro i hi
      have := hnone (i + 1) (by omega)
      simpa [Nat.add_assoc, Nat.add_comm, Nat.add_left_comm] using this) (by
      have : w.receiptCalls + 1 + j = w.receiptCalls + (j + 1) := by omega
      rw [this]; exact hfound)
    simp only [TransactionAbc.waitFor, hst, reduceIte, hrec]
    cases w with
    | mk a c d e f g => simp; omega

theorem waitWhile_finds (b : DevChain) (r : Receipt) (m : Nat)
    (hm : hexToNat? r.status = some m) :
    ∀ (k fuel : Nat) (h : Handle) (w : World), k < fuel → h.tx_receipt = none →
    (∀ i, i < k → b.receiptAt (w.receiptCalls + i) = none) →
    b.receiptAt (w.receiptCalls + k) = some r →
    TransactionAbc.waitWhile fuel b h w =
      some (.ok (), {h with tx_receipt := some r},
            {w with receiptCalls := w.receiptCalls + k + 1,
                    sleepMs := w.sleepMs + 250 * k}) := by
  intro k
  induction k with
  | zero =>
    intro fuel h w hkf hr _ hfound
    obtain ⟨p, rfl⟩ : ∃ p, fuel = p + 1 := ⟨fuel - 1, by omega⟩
    have hfound0 : b.receiptAt w.receiptCalls = some r := by simpa using hfound
    have hst : TransactionAbc.status b h w =
        (.ok (if m = 0 then .FAILURE else .SUCCESS), {h with tx_receipt := some r},
         {w with receiptCalls := w.receiptCalls + 1}) := by
      simp [TransactionAbc.status, hr, hfound0, hm]
    simp only [TransactionAbc.waitWhile, hst, statusOf_ne_pending m, reduceIte]
    cases w with
    | mk a c d e f g => simp

  | succ j ih =>
    intro fuel h w hkf hr hnone hfound
    obtain ⟨p, rfl⟩ : ∃ p, fuel = p + 1 := ⟨fuel - 1, by omega⟩
    have h0 : b.receiptAt w.receiptCalls = none := by
      simpa using hnone 0 (Nat.succ_pos j)
    have hst : TransactionAbc.status b h w =
        (.ok .PENDING, h, {w with receiptCalls := w.receiptCalls + 1}) := by
      simp [TransactionAbc.status, hr, h0]
    have hrec := ih p h
        {w with receiptCalls := w.receiptCalls + 1, sleepMs := w.sleepMs + 250}
        (by omega) hr (by
          intro i hi
          have := hnone (i + 1) (by omega)
          simpa [Nat.add_assoc, Nat.add_comm, Nat.add_left_comm] using this) (by
          have : w.receiptCalls + 1 + j = w.receiptCalls + (j + 1) := by omega
          rw [this]; exact hfound)
    simp only [TransactionAbc.waitWhile, hst, reduceIte, hrec]
    cases w with
    | mk a c d e f g => simp; omega

theorem waitWhile_never (b : DevChain) (hnone : ∀ i, b.receiptAt i = none) :
    ∀ (fuel : Nat) (h : Handle) (w : World), h.tx_receipt = none →
    TransactionAbc.waitWhile fuel b h w = none := by
  intro fuel
  induction fuel with
  | zero => intro h w _; rfl
  | succ p ih =>
    intro h w hr
    have hst : TransactionAbc.status b h w =
        (.ok .PENDING, h, {w with receiptCalls := w.receiptCalls + 1}) := by
      simp [TransactionAbc.status, hr, hnone w.receiptCalls]
    simp only [TransactionAbc.waitWhile, hst, reduceIte]
    exact ih h _ hr

theorem error_ne_none (fuel : Nat) (b : DevChain) (h : Handle) (w : World)
    (r : Receipt) (hr : h.tx_receipt = some r) :
    TransactionAbc.error fuel b h w ≠ none := by
  simp only [TransactionAbc.error, ensureReceipt_cached fuel b h w r hr]
  rcases hst : TransactionAbc.status b h w with ⟨pe | st, h2, w2⟩
  · simp
  · by_cases hsu : st = .SUCCESS
    · simp [hsu]
    · simp only [hsu, reduceIte]
      rcases he : h2._error with _ | e
      · simp only [he]
        rcases hc : b.callOutcome h2.tx_params with _ | edata
        · simp [hc]
        · simp only [hc]
          rcases hx : TransactionAbc.extractRevertData b.kind edata with _ | rd
          · simp [hx]
          · simp only [hx]
            rcases hf : h2.recipient_fqn with _ | fqn
            · simp [hf]
            · simp only [hf]
              rcases hb : bytesFromHex? rd with _ | bs <;> simp [hb]
      · simp [he]

/-! The claims. -/

/-- C1: the status accessor is derived solely from the receipt.  With an empty
cache and no backend receipt the status is PENDING and the cache stays empty
(a PENDING observation never populates the receipt cache); a fetched receipt is
stored and a status flag parsing to zero gives FAILURE while a nonzero flag
gives SUCCESS; a cached receipt is classified the same way without a fetch. -/
theorem claim_C1_status_transitions (b : DevChain) (h : Handle) (w : World)
    (r : Receipt) (n : Nat) :
    (h.tx_receipt = none → b.receiptAt w.receiptCalls = none →
       TransactionAbc.status b h w =
         (.ok .PENDING, h, {w with receiptCalls := w.receiptCalls + 1})) ∧
    (h.tx_receipt = none → b.receiptAt w.receiptCalls = some r →
     hexToNat? r.status = some 0 →
       TransactionAbc.status b h w =
         (.ok .FAILURE, {h with tx_receipt := some r},
          {w with receiptCalls := w.receiptCalls + 1})) ∧
    (h.tx_receipt = none → b.receiptAt w.receiptCalls = some r →
     hexToNat? r.status = some n → n ≠ 0 →
       TransactionAbc.status b h w =
         (.ok .SUCCESS, {h with tx_receipt := some r},
          {w with receiptCalls := w.receiptCalls + 1})) ∧
    (h.tx_receipt = some r → hexToNat? r.status = some 0 →
       TransactionAbc.status b h w = (.ok .FAILURE, h, w)) ∧
    (h.tx_receipt = some r → hexToNat? r.status = some n → n ≠ 0 →
       TransactionAbc.status b h w = (.ok .SUCCESS, h, w)) := by
  refine ⟨?_, ?_, ?_, ?_, ?_⟩
  · intro h1 h2; simp [TransactionAbc.status, h1, h2]
  · intro h1 h2 h3; simp [TransactionAbc.status, h1, h2, h3]
  · intro h1 h2 h3 h4; simp [TransactionAbc.status, h1, h2, h3, h4]
  · intro h1 h2; simp [TransactionAbc.status, h1, h2]
  · intro h1 h2 h3; simp [TransactionAbc.status, h1, h2, h3]

/-- Witness for C1: a fresh handle against a backend with no receipt observes
PENDING and its receipt cache stays empty. -/
theorem claim_C1_witness :
    TransactionAbc.status bNever h0 w0 =
      (.ok .PENDING, h0, {w0 with receiptCalls := w0.receiptCalls + 1}) :=
  (claim_C1_status_transitions bNever h0 w0 rSuccess 1).1 rfl rfl

/-- C5: every populated cache slot (raw transaction data, receipt, full trace,
debug trace, decoded error, decoded event list) is read back without any
further backend fetch (the `World` call counters are unchanged) and without
being invalidated or overwritten (the `Handle` is unchanged). -/
theorem claim_C5_idempotent_caches (fuel : Nat) (b : DevChain) (h : Handle) (w : World)
    (d : TxData) (r : Receipt) (t : List CallFrame) (dt : DebugTrace)
    (e : TransactionRevertedError) (ev : EventsResult) (n : Nat) :
    (h.tx_data = some d → TransactionAbc.ensureTxData b h w = (d, h, w)) ∧
    (h.tx_receipt = some r →
       TransactionAbc.ensureReceipt fuel b h w = some (.ok (), h, w)) ∧
    (h.trace_transaction = some t →
       TransactionAbc.fetch_trace_transaction b h w = (.ok (), h, w)) ∧
    (h.debug_trace_transaction = some dt →
       TransactionAbc.fetch_debug_trace_transaction b h w = (h, w)) ∧
    (h.tx_receipt = some r → hexToNat? r.status = some n → h._error = some e →
       TransactionAbc.error fuel b h w =
         some (.ok (if n = 0 then some e else none), h, w)) ∧
    (h.tx_receipt = some r → h._events = some ev →
       TransactionAbc.events fuel b h w = some (.ok ev, h, w)) := by
  refine ⟨?_, ?_, ?_, ?_, ?_, ?_⟩
  · intro h1; simp [TransactionAbc.ensureTxData, h1]
  · intro h1; exact ensureReceipt_cached fuel b h w r h1
  · intro h1; simp [TransactionAbc.fetch_trace_transaction, h1]
  · intro h1; simp [TransactionAbc.fetch_debug_trace_transaction, h1]
  · intro h1 h2 h3
    have hst := status_cached b h w r n h1 h2
    simp only [TransactionAbc.error, ensureReceipt_cached fuel b h w r h1, hst]
    by_cases hn : n = 0 <;> simp [hn, h3]
  · intro h1 h2
    simp [TransactionAbc.events, ensureReceipt_cached fuel b h w r h1, h2]

/-- Witness for C5: reading the receipt-dependent path of a handle whose
receipt slot is populated issues no backend call and leaves the handle as is. -/
theorem claim_C5_witness :
    TransactionAbc.ensureReceipt 0 bAnvil hSucc w0 = some (.ok (), hSucc, w0) :=
  (claim_C5_idempotent_caches 0 bAnvil hSucc w0 dLegacy rSuccess [] ⟨"002a"⟩
      e0 .empty 1).2.1 rfl

/-- C8: on a transaction with no recipient contract context, the events
accessor asserts that the receipt's log list is empty and returns (and caches)
an empty result; a non-empty log list fails the assertion instead of being
silently ignored. -/
theorem claim_C8_creation_events (fuel : Nat) (b : DevChain) (h : Handle) (w : World)
    (r : Receipt) (hr : h.tx_receipt = some r) (hrec : h.recipient_fqn = none)
    (hev : h._events = none) :
    (r.logs = [] → TransactionAbc.events fuel b h w =
       some (.ok .empty, {h with _events := some .empty}, w)) ∧
    (r.logs ≠ [] → TransactionAbc.events fuel b h w =
       some (.error .assertionError, h, w)) := by
  constructor <;> intro hl <;>
    simp [TransactionAbc.events, ensureReceipt_cached fuel b h w r hr, hr, hrec, hev, hl]

/-- Witness for C8: a recipient-less handle with a logless receipt resolves to
the cached empty event list. -/
theorem claim_C8_witness :
    TransactionAbc.events 1 bAnvil hNoRecipient w0 =
      some (.ok .empty, {hNoRecipient with _events := some .empty}, w0) :=
  (claim_C8_creation_events 1 bAnvil hNoRecipient w0 rCreate rfl rfl rfl).1 rfl

/-- C9: on the legacy variant the `v` and `gas_price` accessors are available
(they parse the corresponding raw fields), and the `type` accessor asserts the
raw transaction's encoded type field equals 0 before reporting the LEGACY tag,
failing an assertion on a nonzero type field. -/
theorem claim_C9_legacy_accessors (b : DevChain) (h : Handle) (w : World) (d : TxData)
    (nv ng nt : Nat) (hd : h.tx_data = some d) :
    (hexToNat? d.v = some nv → LegacyTransaction.v b h w = (.ok nv, h, w)) ∧
    (hexToNat? d.gasPrice = some ng →
       LegacyTransaction.gas_price b h w = (.ok ng, h, w)) ∧
    (hexToNat? d.typeField = some 0 →
       LegacyTransaction.type b h w = (.ok .LEGACY, h, w)) ∧
    (hexToNat? d.typeField = some nt → nt ≠ 0 →
       LegacyTransaction.type b h w = (.error .assertionError, h, w)) := by
  refine ⟨?_, ?_, ?_, ?_⟩
  · intro h1; simp [LegacyTransaction.v, TransactionAbc.ensureTxData, hd, h1]
  · intro h1; simp [LegacyTransaction.gas_price, TransactionAbc.ensureTxData, hd, h1]
  · intro h1; simp [LegacyTransaction.type, TransactionAbc.ensureTxData, hd, h1]
  · intro h1 h2; simp [LegacyTransaction.type, TransactionAbc.ensureTxData, hd, h1, h2]

/-- Witness for C9: a legacy handle whose raw type field is `0x0` reports the
LEGACY tag. -/
theorem claim_C9_witness :
    LegacyTransaction.type bAnvil hLegacy w0 = (.ok .LEGACY, hLegacy, w0) :=
  (claim_C9_legacy_accessors bAnvil hLegacy w0 dLegacy 27 1000000000 0 rfl).2.2.1 rfl

/-- C10: on a handle whose status is SUCCESS (status flag parses nonzero), the
error accessor returns `None` and issues no replay `eth_call` (the `ethCalls`
counter is untouched), whether the receipt was already cached or is fetched by
the access itself. -/
theorem claim_C10_success_no_replay (fuel : Nat) (b : DevChain) (h : Handle) (w : World)
    (r : Receipt) (n : Nat) (hs : hexToNat? r.status = some n) (hn : n ≠ 0) :
    (h.tx_receipt = some r →
       TransactionAbc.error fuel b h w = some (.ok none, h, w)) ∧
    (h.tx_receipt = none → b.receiptAt w.receiptCalls = some r →
       TransactionAbc.error fuel b h w =
         some (.ok none, {h with tx_receipt := some r},
               {w with receiptCalls := w.receiptCalls + 1})) := by
  constructor
  · intro hr
    have hst := status_cached b h w r n hr hs
    simp only [TransactionAbc.error, ensureReceipt_cached fuel b h w r hr, hst]
    simp [hn]
  · intro hr hrc
    have hst : TransactionAbc.status b h w =
        (.ok (if n = 0 then .FAILURE else .SUCCESS), {h with tx_receipt := some r},
         {w with receiptCalls := w.receiptCalls + 1}) := by
      simp [TransactionAbc.status, hr, hrc, hs]
    have hwf := waitFor_terminal 40 b h _ w _ _ (by norm_num) hst (statusOf_ne_pending n)
    have hwait : TransactionAbc.wait fuel b h w =
        some (.ok (), {h with tx_receipt := some r},
              {w with receiptCalls := w.receiptCalls + 1}) := by
      simp only [TransactionAbc.wait, hwf]
    have hens : TransactionAbc.ensureReceipt fuel b h w =
        some (.ok (), {h with tx_receipt := some r},
              {w with receiptCalls := w.receiptCalls + 1}) := by
      simp [TransactionAbc.ensureReceipt, hr, hwait]
    have hst2 := status_cached b {h with tx_receipt := some r}
        {w with receiptCalls := w.receiptCalls + 1} r n (by simp) hs
    simp only [TransactionAbc.error, hens, hst2]
    simp [hn]

/-- Witness for C10: the error accessor on a cached SUCCESS handle returns
`None` without touching the backend. -/
theorem claim_C10_witness :
    TransactionAbc.error 1 bAnvil hSucc w0 = some (.ok none, hSucc, w0) :=
  (claim_C10_success_no_replay 1 bAnvil hSucc w0 rSuccess 1 rfl (by decide)).1 rfl

/-- C2 (amended): for every SUCCESS-status transaction whose receipt carries a
non-null created-contract address, resolving the return value yields a
handle-typed reference to that address with no decoding and no backend fetch,
regardless of the ABI descriptor; in the code this check runs after the
status-SUCCESS requirement, not before it. -/
theorem claim_C2_creation_return (fuel : Nat) (b : DevChain) (h : Handle) (w : World)
    (r : Receipt) (n : Nat) (addr : String)
    (hr : h.tx_receipt = some r) (hs : hexToNat? r.status = some n) (hn : n ≠ 0)
    (hca : r.contractAddress = some addr) :
    TransactionAbc.return_value fuel b h w =
      some (.ok (.ref addr h.return_type), h, w) := by
  have hst := status_cached b h w r n hr hs
  simp only [TransactionAbc.return_value, ensureReceipt_cached fuel b h w r hr, hst]
  simp [hn, hr, hca]

/-- Counterexample to C2 as stated: a receipt with a non-null created-contract
address but a zero status flag does not resolve to a handle-typed reference —
the resolver hits the status check first and raises the decoded revert error. -/
theorem claim_C2_counterexample :
    Option.map Prod.fst (TransactionAbc.return_value 1 bAnvil hCreateFail w0) =
      some (.error (.reverted e0)) ∧
    Option.map Prod.fst (TransactionAbc.return_value 1 bAnvil hCreateFail w0) ≠
      some (.ok (.ref "0xc0ffee" 7)) := by
  constructor
  · rfl
  · intro hc
    have h1 : Option.map Prod.fst (TransactionAbc.return_value 1 bAnvil hCreateFail w0) =
        some (.error (.reverted e0)) := rfl
    rw [h1] at hc
    simp at hc

/-- Witness for C2 (amended): a successful contract creation resolves to a
reference to the created address without any backend call. -/
theorem claim_C2_witness :
    TransactionAbc.return_value 1 bAnvil hCreate w0 =
      some (.ok (.ref "0xc0ffee" hCreate.return_type), hCreate, w0) :=
  claim_C2_creation_return 1 bAnvil hCreate w0 rCreate 1 "0xc0ffee" rfl rfl
    (by decide) rfl

/-- C3: on a FAILURE-status handle the return-value accessor never produces a
successful value, and whenever the error accessor resolves a decoded revert
error, the return-value accessor raises exactly that object, leaving the same
handle and call-count state. -/
theorem claim_C3_failure_raises (fuel : Nat) (b : DevChain) (h : Handle) (w : World)
    (r : Receipt) (e : TransactionRevertedError) (h2 : Handle) (w2 : World)
    (hr : h.tx_receipt = some r) (hs : hexToNat? r.status = some 0) :
    Option.map (fun res => exceptIsOk res.1) (TransactionAbc.return_value fuel b h w) =
      some false ∧
    (TransactionAbc.error fuel b h w = some (.ok (some e), h2, w2) →
       TransactionAbc.return_value fuel b h w =
         some (.error (.reverted e), h2, w2)) := by
  have hst := status_cached b h w r 0 hr hs
  have hrv : TransactionAbc.return_value fuel b h w =
      (match TransactionAbc.error fuel b h w with
       | none => none
       | some (.error pe, h3, w3) => some (.error pe, h3, w3)
       | some (.ok none, h3, w3) => some (.error .assertionError, h3, w3)
       | some (.ok (some e1), h3, w3) => some (.error (.reverted e1), h3, w3)) := by
    simp only [TransactionAbc.return_value, ensureReceipt_cached fuel b h w r hr, hst]
    simp
  constructor
  · rw [hrv]
    rcases herr : TransactionAbc.error fuel b h w with _ | ⟨pe | oe, h3, w3⟩
    · exact absurd herr (error_ne_none fuel b h w r hr)
    · simp [exceptIsOk]
    · rcases oe with _ | e1 <;> simp [exceptIsOk]
  · intro he
    rw [hrv, he]

/-- Witness for C3: on a concrete FAILURE handle the resolver raises the very
error object the error accessor returns. -/
theorem claim_C3_witness :
    Option.map (fun res => exceptIsOk res.1)
        (TransactionAbc.return_value 1 bAnvil hFail w0) = some false ∧
    (TransactionAbc.error 1 bAnvil hFail w0 =
       some (.ok (some e0), {hFail with _error := some e0},
             {w0 with ethCalls := w0.ethCalls + 1}) →
     TransactionAbc.return_value 1 bAnvil hFail w0 =
       some (.error (.reverted e0), {hFail with _error := some e0},
             {w0 with ethCalls := w0.ethCalls + 1})) :=
  claim_C3_failure_raises 1 bAnvil hFail w0 rFail e0
    {hFail with _error := some e0} {w0 with ethCalls := w0.ethCalls + 1} rfl rfl

/-- C4 (amended): the revert payload of the replay call is read at the depth
the backend dictates — Anvil (full-trace variant) and Ganache (minimal
variant) at `error.data` directly, Hardhat (structured-error variant) one
level deeper at `error.data.data` — a leading `0x` prefix is stripped, and the
payload bytes are handed to the decoder and cached. -/
theorem claim_C4_revert_depths (fuel : Nat) (b : DevChain) (h : Handle) (w : World)
    (r : Receipt) (edata inner : Json) (s fqn : String) (bs : List Nat)
    (hr : h.tx_receipt = some r) (hs : hexToNat? r.status = some 0)
    (hcache : h._error = none) (hfqn : h.recipient_fqn = some fqn)
    (hcall : b.callOutcome h.tx_params = some edata)
    (hbs : bytesFromHex? (strip0x s) = some bs) :
    ((b.kind = .AnvilDevChain ∨ b.kind = .GanacheDevChain) →
       jsonGet edata "data" = some (.str s) →
       TransactionAbc.error fuel b h w =
         some (.ok (some (processRevertData h.tx_hash bs fqn)),
               {h with _error := some (processRevertData h.tx_hash bs fqn)},
               {w with ethCalls := w.ethCalls + 1})) ∧
    (b.kind = .HardhatDevChain →
       jsonGet edata "data" = some inner → jsonGet inner "data" = some (.str s) →
       TransactionAbc.error fuel b h w =
         some (.ok (some (processRevertData h.tx_hash bs fqn)),
               {h with _error := some (processRevertData h.tx_hash bs fqn)},
               {w with ethCalls := w.ethCalls + 1})) := by
  have hst := status_cached b h w r 0 hr hs
  have main : TransactionAbc.extractRevertData b.kind edata = some (strip0x s) →
      TransactionAbc.error fuel b h w =
        some (.ok (some (processRevertData h.tx_hash bs fqn)),
              {h with _error := some (processRevertData h.tx_hash bs fqn)},
              {w with ethCalls := w.ethCalls + 1}) := by
    intro hx
    simp only [TransactionAbc.error, ensureReceipt_cached fuel b h w r hr, hst]
    simp [hcache, hcall, hx, hfqn, hbs]
  constructor
  · intro hk hd
    apply main
    rcases hk with hk | hk <;> simp [TransactionAbc.extractRevertData, hk, hd]
  · intro hk hd1 hd2
    apply main
    simp [TransactionAbc.extractRevertData, hk, hd1, hd2]

/-- Counterexample to C4 as stated: the minimal (Ganache) variant does produce
a structured revert reason — its payload is read at `error.data` exactly like
the full-trace variant, so the decoded error is not absent. -/
theorem claim_C4_counterexample :
    Option.map Prod.fst (TransactionAbc.error 1 bGanache hFail w0) =
      some (.ok (some e0)) ∧
    Option.map Prod.fst (TransactionAbc.error 1 bGanache hFail w0) ≠
      some (.ok none) := by
  constructor
  · rfl
  · intro hc
    have h1 : Option.map Prod.fst (TransactionAbc.error 1 bGanache hFail w0) =
        some (.ok (some e0)) := rfl
    rw [h1] at hc
    simp at hc

/-- Witness for C4 (amended): on the Hardhat backend the payload is read one
level deeper, stripped of `0x`, decoded and cached. -/
theorem claim_C4_witness :
    TransactionAbc.error 1 bHardhat hFail w0 =
      some (.ok (some (processRevertData hFail.tx_hash [8, 195, 121, 160] "F")),
            {hFail with _error := some (processRevertData hFail.tx_hash [8, 195, 121, 160] "F")},
            {w0 with ethCalls := w0.ethCalls + 1}) :=
  (claim_C4_revert_depths 1 bHardhat hFail w0 rFail edataNested
      (.obj [("data", .str "0x08c379a0")]) "0x08c379a0" "F" [8, 195, 121, 160]
      rfl rfl rfl rfl rfl rfl).2 rfl rfl rfl

/-- C6: `wait` on an already-terminal handle (receipt cached, status flag
parsed) returns at once with no backend call and no sleep; on a pending handle
whose receipt first appears on the `(k+1)`-st poll it performs exactly `k+1`
receipt polls, the first 40 of them immediate, sleeping 250 ms per pending
check of the fallback loop (`250 * (k - 40)` ms in total); and when the
backend never produces a receipt it polls forever (no upper timeout). -/
theorem claim_C6_wait_protocol (fuel : Nat) (b : DevChain) (h : Handle) (w : World)
    (r : Receipt) (n k : Nat) :
    (h.tx_receipt = some r → hexToNat? r.status = some n →
       TransactionAbc.wait fuel b h w = some (.ok (), h, w)) ∧
    (h.tx_receipt = none →
     (∀ i, i < k → b.receiptAt (w.receiptCalls + i) = none) →
     b.receiptAt (w.receiptCalls + k) = some r →
     hexToNat? r.status = some n → k + 1 ≤ 40 + fuel →
       TransactionAbc.wait fuel b h w =
         some (.ok (), {h with tx_receipt := some r},
               {w with receiptCalls := w.receiptCalls + k + 1,
                       sleepMs := w.sleepMs + 250 * (k - 40)})) ∧
    (h.tx_receipt = none → (∀ i, b.receiptAt i = none) →
       TransactionAbc.wait fuel b h w = none) := by
  refine ⟨?_, ?_, ?_⟩
  · intro hr hs
    have hst := status_cached b h w r n hr hs
    have hwf := waitFor_terminal 40 b h h w w _ (by norm_num) hst (statusOf_ne_pending n)
    simp only [TransactionAbc.wait, hwf]
  · intro hr hnone hfound hs hfuel
    by_cases hk : k < 40
    · have hwf := waitFor_finds b r n hs k 40 h w hk hr hnone hfound
      simp only [TransactionAbc.wait, hwf]
      have hk40 : k - 40 = 0 := by omega
      cases w with
      | mk a c d e f g => simp [hk40]
    · push_neg at hk
      have hwf := waitFor_all_pending b 40 h w hr (fun i hi => hnone i (by omega))
      have hww := waitWhile_finds b r n hs (k - 40) fuel h
          {w with receiptCalls := w.receiptCalls + 40} (by omega) hr
          (by
            intro i hi
            have := hnone (40 + i) (by omega)
            simpa [Nat.add_assoc] using this)
          (by
            have harith : w.receiptCalls + 40 + (k - 40) = w.receiptCalls + k := by omega
            simpa [harith] using hfound)
      simp only [TransactionAbc.wait, hwf, hww]
      cases w with
      | mk a c d e f g =>
        simp
        omega
  · intro hr hnone
    have hwf := waitFor_all_pending b 40 h w hr (fun i _ => hnone _)
    simp only [TransactionAbc.wait, hwf]
    exact waitWhile_never b hnone fuel h _ hr

/-- Witness for C6: with the receipt first available on the 46th poll, `wait`
issues 46 receipt polls and sleeps 5 times 250 ms. -/
theorem claim_C6_witness :
    TransactionAbc.wait 10 bPend h0 w0 =
      some (.ok (), {h0 with tx_receipt := some rSuccess},
            {w0 with receiptCalls := w0.receiptCalls + 45 + 1,
                     sleepMs := w0.sleepMs + 250 * (45 - 40)}) :=
  (claim_C6_wait_protocol 10 bPend h0 w0 rSuccess 1 45).2.1 rfl
    (by
      intro i hi
      have h00 : w0.receiptCalls = 0 := rfl
      have hlt : w0.receiptCalls + i < 45 := by omega
      simp [bPend, hlt])
    (by
      have h00 : w0.receiptCalls = 0 := rfl
      simp [bPend, h00])
    rfl (by omega)

/-- C7: on a SUCCESS, non-contract-creation transaction the return value comes
from decoding, against the expected return type, the outermost call-trace
frame's output on the Anvil (full-trace) backend and the debug trace's
`returnValue` — fetched with options `{enableMemory := true}` — on every other
backend, with exactly one trace fetch issued when the slot was empty. -/
theorem claim_C7_success_decode (fuel : Nat) (b : DevChain) (h : Handle) (w : World)
    (r : Receipt) (n abi : Nat) (f : CallFrame) (rest : List CallFrame)
    (dt : DebugTrace) (bs1 bs2 : List Nat)
    (hr : h.tx_receipt = some r) (hs : hexToNat? r.status = some n) (hn : n ≠ 0)
    (hca : r.contractAddress = none) (habi : h.abi = some abi) :
    (b.kind = .AnvilDevChain → h.trace_transaction = none →
     b.traceFrames = f :: rest → bytesFromHex? (pyDrop f.output 2) = some bs1 →
       TransactionAbc.return_value fuel b h w =
         some (.ok (.fromBytes bs1 abi h.return_type),
               {h with trace_transaction := some (f :: rest)},
               {w with traceCalls := w.traceCalls + 1})) ∧
    (b.kind ≠ .AnvilDevChain → h.debug_trace_transaction = none →
     b.debugTrace ⟨true⟩ = dt → bytesFromHex? dt.returnValue = some bs2 →
       TransactionAbc.return_value fuel b h w =
         some (.ok (.fromBytes bs2 abi h.return_type),
               {h with debug_trace_transaction := some dt},
               {w with debugCalls := w.debugCalls + 1})) := by
  have hst := status_cached b h w r n hr hs
  constructor
  · intro hk ht hfr hout
    have hft : TransactionAbc.fetch_trace_transaction b h w =
        (.ok (), {h with trace_transaction := some (f :: rest)},
         {w with traceCalls := w.traceCalls + 1}) := by
      simp [TransactionAbc.fetch_trace_transaction, ht, hk, hfr]
    simp only [TransactionAbc.return_value, ensureReceipt_cached fuel b h w r hr, hst]
    simp [hn, hr, hca, habi, hk, hft, hout]
  · intro hk hd hdt hout
    have hfd : TransactionAbc.fetch_debug_trace_transaction b h w =
        ({h with debug_trace_transaction := some dt},
         {w with debugCalls := w.debugCalls + 1}) := by
      simp [TransactionAbc.fetch_debug_trace_transaction, hd, hdt]
    simp only [TransactionAbc.return_value, ensureReceipt_cached fuel b h w r hr, hst]
    simp [hn, hr, hca, habi, hk, hfd, hout]

/-- Witness for C7: on the Anvil backend the outermost trace frame's output
`0x002a` decodes (here: byte-decoded) to the resolved value. -/
theorem claim_C7_witness :
    TransactionAbc.return_value 1 bAnvil hSucc w0 =
      some (.ok (.fromBytes [0, 42] 1 hSucc.return_type),
            {hSucc with trace_transaction := some [⟨"0x002a"⟩]},
            {w0 with traceCalls := w0.traceCalls + 1}) :=
  (claim_C7_success_decode 1 bAnvil hSucc w0 rSuccess 1 1 ⟨"0x002a"⟩ [] ⟨"002a"⟩
      [0, 42] [0, 42] rfl rfl (by decide) rfl rfl).1 rfl rfl rfl rfl
